import Mathlib

/-!
A shallow embedding of the data-loading and aggregation core of the
polar-plants dashboard (`src/main.py`).

Modelling conventions:
* Korean text is modelled at codepoint granularity by `UChar`: a composed
  Hangul syllable block is `UChar.syl l v t?` (leading consonant, vowel,
  optional trailing consonant index) and its canonical decomposition is the
  corresponding `jL`/`jV`/`jT` jamo sequence; ASCII codepoints are `UChar.raw`.
  `nfc`/`nfd` model `unicodedata.normalize("NFC"/"NFD", ·)` on the fragment of
  Unicode the program manipulates.
* A pandas `DataFrame` is a `Table`: an ordered association of column names to
  cell lists, a cell being `Option ℚ` with `none` playing the role of `NaN`
  (pandas `mean`/`std` skip `NaN`; an all-`NaN` reduction yields `NaN`).
* Python exceptions that the source lets escape are modelled by
  `Except String` results (`.error "KeyError"`, `.error "ValueError"`); the
  directory is a list of `DirEntry`, whose `parsed` field is `none` exactly
  when `pd.read_csv` would raise on that file.
* `std()` values are irrational in general; structures store the squared
  standard deviation (`pandasVar`, the N-1 sample variance pandas computes),
  and square roots appear only in theorem statements.
-/

deriving instance DecidableEq for Except

/-- A codepoint of the fragment of Unicode the program manipulates:
ASCII (`raw`), a composed Hangul syllable block (`syl`), or a conjoining
jamo (`jL`/`jV`/`jT`). -/
inductive UChar where
  | raw (c : Nat)
  | syl (l v : Nat) (t : Option Nat)
  | jL (l : Nat)
  | jV (v : Nat)
  | jT (t : Nat)
deriving DecidableEq, Repr

/-- Canonical decomposition of one codepoint. -/
def nfdChar : UChar → List UChar
  | .syl l v none => [.jL l, .jV v]
  | .syl l v (some t) => [.jL l, .jV v, .jT t]
  | c => [c]

/-- `unicodedata.normalize("NFD", s)`. -/
def nfd (s : List UChar) : List UChar := (s.map nfdChar).flatten

/-- `unicodedata.normalize("NFC", s)`: recompose L+V(+T) jamo runs. -/
def nfc : List UChar → List UChar
  | .jL l :: .jV v :: .jT t :: rest => .syl l v (some t) :: nfc rest
  | .jL l :: .jV v :: rest => .syl l v none :: nfc rest
  | c :: rest => c :: nfc rest
  | [] => []

/-- `normalize_filename` (src/main.py:28): both normal forms of a name. -/
def normalize_filename (filename : List UChar) : List UChar × List UChar :=
  (nfc filename, nfd filename)

/-- 송도고 (composed form). -/
def songdoU : List UChar := [.syl 9 8 (some 21), .syl 3 8 none, .syl 0 8 none]

/-- 하늘고 (composed form). -/
def haneulU : List UChar := [.syl 18 0 none, .syl 2 18 (some 8), .syl 0 8 none]

/-- 아라고 (composed form). -/
def araU : List UChar := [.syl 11 0 none, .syl 5 0 none, .syl 0 8 none]

/-- 동산고 (composed form). -/
def dongsanU : List UChar := [.syl 3 8 (some 21), .syl 9 0 (some 4), .syl 0 8 none]

/-- The fixed site list `schools = ["송도고", "하늘고", "아라고", "동산고"]`
(src/main.py:46, and the inner loop at line 98). -/
def schools : List (List UChar) := [songdoU, haneulU, araU, dongsanU]

/-- 환경데이터 (composed form), the fixed label in the CSV filename pattern. -/
def envLabel : List UChar :=
  [.syl 18 9 (some 4), .syl 0 6 (some 21), .syl 3 5 none, .syl 11 20 none,
   .syl 16 4 none]

/-- The characters `.csv`. -/
def csvExt : List UChar := [.raw 46, .raw 99, .raw 115, .raw 118]

/-- The literal suffix `_환경데이터.csv` as it appears (composed) in the source
f-string at src/main.py:49. -/
def envSuffix : List UChar := .raw 95 :: envLabel ++ csvExt

/-- A growth/environment table: ordered columns of `NaN`-able rational cells. -/
structure Table where
  cols : List (String × List (Option ℚ))
deriving DecidableEq, Repr

/-- Association-list lookup modelling Python `dict` access. -/
def lookupA {K V : Type} [DecidableEq K] : List (K × V) → K → Option V
  | [], _ => none
  | p :: rest, k => if p.1 = k then some p.2 else lookupA rest k

/-- `col in df.columns` / `df[col]` on our table model. -/
def Table.col? (t : Table) (c : String) : Option (List (Option ℚ)) :=
  lookupA t.cols c

/-- One entry of the `data` directory; `parsed = none` models a file on which
`pd.read_csv` raises. -/
structure DirEntry where
  name : List UChar
  isFile : Bool
  parsed : Option Table
deriving DecidableEq

/-- Index of the last `.` in a name, for `pathlib`'s `suffix`. -/
def lastDotIdxAux : List UChar → Nat → Option Nat → Option Nat
  | [], _, acc => acc
  | c :: rest, i, acc =>
    lastDotIdxAux rest (i + 1) (if c = UChar.raw 46 then some i else acc)

/-- `Path(name).suffix`: the extension from the last dot, empty when the dot
is the first or last character or absent. -/
def pathSuffix (n : List UChar) : List UChar :=
  match lastDotIdxAux n 0 none with
  | some i => if 0 < i ∧ i < n.length - 1 then n.drop i else []
  | none => []

/-- Diagnostics the environment loader surfaces through `st.warning`. -/
inductive EnvDiag where
  | loadFail (school : List UChar)
  | notFound (school : List UChar)
deriving DecidableEq, Repr

/-- The filename match at src/main.py:56:
`file_nfc == pattern_nfc or file_nfd == pattern_nfd or
 file.name == pattern_nfc or file.name == pattern_nfd`, with
`pattern_nfc = NFC(school) + "_환경데이터.csv"` and
`pattern_nfd = NFD(school) + "_환경데이터.csv"` (the literal suffix stays
composed in both patterns, as in the source f-strings). -/
def matchesEnv (school name : List UChar) : Bool :=
  let patternNfc := nfc school ++ envSuffix
  let patternNfd := nfd school ++ envSuffix
  let norm := normalize_filename name
  decide (norm.1 = patternNfc) || decide (norm.2 = patternNfd) ||
    decide (name = patternNfc) || decide (name = patternNfd)

/-- The inner `for file in data_dir.iterdir()` loop of
`load_environment_data` for one school: on a successful read it stops
(`break`); on a read exception it records the warning of line 63 and keeps
scanning (the `except` branch does not `break`). -/
def scanSchool (school : List UChar) : List DirEntry → Option Table × List EnvDiag
  | [] => (none, [])
  | e :: rest =>
    if e.isFile && decide (pathSuffix e.name = csvExt) && matchesEnv school e.name
    then
      match e.parsed with
      | some df => (some df, [])
      | none =>
        let r := scanSchool school rest
        (r.1, EnvDiag.loadFail school :: r.2)
    else scanSchool school rest

/-- The result of `load_environment_data`: the `env_data` dict in insertion
order plus the emitted warnings. -/
structure EnvLoadResult where
  data : List (List UChar × Table)
  warns : List EnvDiag
deriving DecidableEq

/-- `load_environment_data` (src/main.py:36): for each school in order, scan
the directory; a found table is inserted under that school, otherwise the
line-66 "file not found" warning is appended after any read-failure
warnings. -/
def load_environment_data (dir : List DirEntry) : EnvLoadResult :=
  { data := schools.filterMap fun sc => ((scanSchool sc dir).1).map fun df => (sc, df)
    warns := (schools.map fun sc =>
      (scanSchool sc dir).2 ++
        (match (scanSchool sc dir).1 with
         | some _ => []
         | none => [EnvDiag.notFound sc])).flatten }

/-- `leadsWith pat s` is true when `s` starts with `pat`. -/
def leadsWith : List UChar → List UChar → Bool
  | [], _ => true
  | _ :: _, [] => false
  | a :: as, b :: bs => decide (a = b) && leadsWith as bs

/-- Python's `pat in s` on strings: contiguous-subsequence containment. -/
def containsSeq (pat : List UChar) : List UChar → Bool
  | [] => pat.isEmpty
  | c :: rest => leadsWith pat (c :: rest) || containsSeq pat rest

/-- Python `dict` assignment `d[k] = v` on an insertion-ordered association
list: replace in place when the key is present, else append. -/
def insertReplace {K V : Type} [DecidableEq K]
    (gd : List (K × V)) (k : K) (v : V) : List (K × V) :=
  if gd.any fun p => decide (p.1 = k) then
    gd.map fun p => if p.1 = k then (k, v) else p
  else gd ++ [(k, v)]

/-- One iteration of the sheet loop of `load_growth_data` (src/main.py:95):
the first school whose name occurs in the sheet name (line 99, raw `in`
containment, `break` on first hit) receives the sheet's table; an unmatched
sheet leaves the dict unchanged. -/
def growthStep (gd : List (List UChar × Table)) (sheet : List UChar × Table) :
    List (List UChar × Table) :=
  match schools.find? (fun sc => containsSeq sc sheet.1) with
  | some sc => insertReplace gd sc sheet.2
  | none => gd

/-- `load_growth_data` (src/main.py:71), from the workbook's ordered
`(sheet name, parsed sheet)` list onward (after `pd.ExcelFile` succeeded). -/
def load_growth_data (wb : List (List UChar × Table)) : List (List UChar × Table) :=
  wb.foldl growthStep []

/-- One row of `EC_INFO` (src/main.py:108). -/
structure ECInfo where
  ec : ℚ
  type : String
  color : String
deriving DecidableEq

/-- The immutable `EC_INFO` configuration mapping (src/main.py:108). -/
def EC_INFO : List (List UChar × ECInfo) :=
  [(songdoU, ⟨1, "대조군", "#4285F4"⟩),
   (haneulU, ⟨2, "최적", "#34A853"⟩),
   (araU, ⟨4, "고농도", "#FBBC04"⟩),
   (dongsanU, ⟨8, "고농도", "#EA4335"⟩)]

/-- pandas `Series.mean()`: skip `NaN` cells, `NaN` (here `none`) when no
observation remains. -/
def pandasMean (xs : List (Option ℚ)) : Option ℚ :=
  let vs := xs.filterMap id
  if vs.length = 0 then none else some (vs.sum / (vs.length : ℚ))

/-- The square of pandas `Series.std()` (default `ddof=1`): the sample
variance with N-1 denominator, `NaN` (here `none`) on fewer than two
observations. `std()` itself is the square root of this value. -/
def pandasVar (xs : List (Option ℚ)) : Option ℚ :=
  let vs := xs.filterMap id
  if vs.length < 2 then none
  else
    let m := vs.sum / (vs.length : ℚ)
    some ((vs.map fun x => (x - m) * (x - m)).sum / ((vs.length : ℚ) - 1))

/-- Population variance (denominator N), stated only to contrast with the
N-1 convention of `pandasVar`; the source never computes this. -/
def popVarSpec (xs : List (Option ℚ)) : Option ℚ :=
  let vs := xs.filterMap id
  if vs.length = 0 then none
  else
    let m := vs.sum / (vs.length : ℚ)
    some ((vs.map fun x => (x - m) * (x - m)).sum / (vs.length : ℚ))

/-- The fresh-weight column header `생중량(g)`. -/
def fwCol : String := "생중량(g)"

/-- The leaf-count column header `잎 수(장)`. -/
def leafCol : String := "잎 수(장)"

/-- The shoot-length column header `지상부 길이(mm)`. -/
def lenCol : String := "지상부 길이(mm)"

/-- `avg_weights` (src/main.py:394): per-site mean fresh weight, a site being
skipped entirely when its table lacks the `생중량(g)` column. -/
def avg_weights (gd : List (List UChar × Table)) : List (List UChar × Option ℚ) :=
  gd.filterMap fun p =>
    match p.2.col? fwCol with
    | some xs => some (p.1, pandasMean xs)
    | none => none

/-- Python `>` between the float values held in `avg_weights`; `none` plays
`NaN`, for which every comparison is false. -/
def pyGt : Option ℚ → Option ℚ → Bool
  | some a, some b => decide (b < a)
  | _, _ => false

/-- `max_school = max(avg_weights, key=avg_weights.get)` (src/main.py:405):
Python's `max` keeps the first item and replaces it only on a strictly
greater key; on an empty dict it raises `ValueError`. -/
def max_school (aw : List (List UChar × Option ℚ)) : Except String (List UChar) :=
  match aw with
  | [] => .error "ValueError"
  | x :: xs =>
    .ok (xs.foldl (fun best item => if pyGt item.2 best.2 then item else best) x).1

/-- The `metrics` builder of src/main.py:438-452 for one metric column: for
each school of `schools_list` (the keys of `avg_weights`, line 400), append
`df[col].mean()` when the column is present and the number `0` otherwise
(line 452). The `none` branch of the lookup is unreachable for loader-built
data, whose keys contain the `avg_weights` keys. -/
def metrics (gd : List (List UChar × Table)) (c : String) : List (Option ℚ) :=
  (avg_weights gd).map fun p =>
    match lookupA gd p.1 with
    | some df =>
      match df.col? c with
      | some xs => pandasMean xs
      | none => some 0
    | none => none

/-- One site's entry of the `env_stats` dict (src/main.py:181-192); the
`*_var` fields hold the squares of the stored `*_std` floats. -/
structure EnvStats where
  temp_mean : Option ℚ
  temp_var : Option ℚ
  humidity_mean : Option ℚ
  humidity_var : Option ℚ
  ph_mean : Option ℚ
  ph_var : Option ℚ
  ec_mean : Option ℚ
  ec_var : Option ℚ
deriving DecidableEq

/-- `df[c]` as the source uses it inside aggregations: a missing column is an
uncaught `KeyError`. -/
def colE (df : Table) (c : String) : Except String (List (Option ℚ)) :=
  match df.col? c with
  | some xs => .ok xs
  | none => .error "KeyError"

/-- `env_stats[school]` for one table (src/main.py:183-192); raises
`KeyError` when one of the four accessed columns is absent. -/
def env_stats (df : Table) : Except String EnvStats := do
  let t ← colE df "temperature"
  let h ← colE df "humidity"
  let p ← colE df "ph"
  let e ← colE df "ec"
  pure { temp_mean := pandasMean t, temp_var := pandasVar t
         humidity_mean := pandasMean h, humidity_var := pandasVar h
         ph_mean := pandasMean p, ph_var := pandasVar p
         ec_mean := pandasMean e, ec_var := pandasVar e }

/-- Python `sum` over a list of possibly-`NaN` floats: `NaN` absorbs. -/
def sumOptList (ms : List (Option ℚ)) : Option ℚ :=
  ms.foldl (fun acc m => acc.bind fun a => m.map fun b => a + b) (some 0)

/-- `avg_temp = sum(df['temperature'].mean() for df in env_data.values()) /
len(env_data)` (src/main.py:163), reached only under the `if env_data:`
guard; a table lacking the column is an uncaught `KeyError`. -/
def avg_temp (env : List (List UChar × Table)) : Except String (Option ℚ) := do
  let ms ← env.mapM fun p => (colE p.2 "temperature").map pandasMean
  pure ((sumOptList ms).map fun s => s / (env.length : ℚ))

/-- ASCII text as a `UChar` string. -/
def rawStr (cs : List Nat) : List UChar := cs.map UChar.raw

/-- A table with no columns. -/
def emptyTable : Table := ⟨[]⟩

/-- The exact on-disk name `NFC(school) ++ "_환경데이터.csv"` that the source's
`pattern_nfc` describes. -/
def envFileNameNFC (school : List UChar) : List UChar := nfc school ++ envSuffix

/-- The decorated filename `송도고_환경데이터_v2.csv` (composed form). -/
def decoratedSongdo : List UChar :=
  songdoU ++ [.raw 95] ++ envLabel ++ [.raw 95, .raw 118, .raw 50] ++ csvExt

/-- A one-row growth table whose only column is `생중량(g) = [5.0]`. -/
def tbl5 : Table := ⟨[("생중량(g)", [some 5])]⟩

/-- A workbook whose sheets are named `동산고` then `송도고`, with identical
fresh-weight samples, so that both sites tie on the mean. -/
def wbTie : List (List UChar × Table) := [(dongsanU, tbl5), (songdoU, tbl5)]

/-- A growth table lacking the fresh-weight column `생중량(g)`. -/
def tblNoFW : Table := ⟨[("잎 수(장)", [some 3])]⟩

/-- An environment table lacking the `temperature` column. -/
def tblNoTemp : Table := ⟨[("humidity", [some 50])]⟩

/-- A growth table with a fresh-weight column but no leaf-count column. -/
def tblFWonly : Table := ⟨[("생중량(g)", [some 1, some 2])]⟩

/-- A growth table whose fresh-weight samples are exactly `[1.0, 2.0, 3.0]`. -/
def tblG123 : Table := ⟨[("생중량(g)", [some 1, some 2, some 3])]⟩

/-- An environment table whose four sensor columns each hold `[1.0, 2.0, 3.0]`. -/
def tblEnv123 : Table :=
  ⟨[("temperature", [some 1, some 2, some 3]),
    ("humidity", [some 1, some 2, some 3]),
    ("ph", [some 1, some 2, some 3]),
    ("ec", [some 1, some 2, some 3])]⟩

/-- An environment table whose sole header is `" Temperature "`, differing
from `temperature` only in case and surrounding whitespace. -/
def tblSpacey : Table := ⟨[(" Temperature ", [some 20])]⟩

/-- The sheet name `Site: 하늘고 (raw)`. -/
def sheetHaneulDecor : List UChar :=
  rawStr [83, 105, 116, 101, 58, 32] ++ haneulU ++ rawStr [32, 40, 114, 97, 119, 41]

/-- The sheet name `unrelated`. -/
def unrelatedSheet : List UChar := rawStr [117, 110, 114, 101, 108, 97, 116, 101, 100]

theorem pandasMean_single : pandasMean [some (5 : ℚ)] = some 5 := by
  simp [pandasMean]

theorem pandasMean_123 : pandasMean [some 1, some 2, some 3] = some 2 := by
  simp [pandasMean]
  norm_num

theorem pandasVar_123 : pandasVar [some 1, some 2, some 3] = some 1 := by
  simp [pandasVar]
  norm_num

theorem popVarSpec_123 : popVarSpec [some 1, some 2, some 3] = some (2 / 3) := by
  simp [popVarSpec]
  norm_num

/-- C1 counterexample: for the dataset whose only site table carries the
fresh-weight column but lacks `잎 수(장)`, the `metrics` aggregate for that
field is the number `0` (`some 0`), not the explicit no-data value (`none`):
line 452 of the source appends `0` for a missing column, so the claim as
stated is false. -/
theorem C1_zero_substituted :
    metrics [(songdoU, tblFWonly)] leafCol = [some 0] ∧
    metrics [(songdoU, tblFWonly)] leafCol ≠ [none] := by
  refine ⟨by decide, by decide⟩

/-- C2 evidence: with a non-empty growth dataset whose single table lacks
`생중량(g)` (so the `if not growth_data` guard passes but `avg_weights` is
empty), `max(avg_weights, key=...)` raises an uncaught `ValueError`; with a
non-empty environment dataset whose table lacks a `temperature` column (the
`if env_data:` guard passes), `df['temperature']` raises an uncaught
`KeyError`. Both failure states escape as exceptions rather than being
returned as result values, contradicting the claim. -/
theorem C2_uncaught_crash :
    ([(songdoU, tblNoFW)] : List (List UChar × Table)) ≠ [] ∧
    avg_weights [(songdoU, tblNoFW)] = [] ∧
    max_school (avg_weights [(songdoU, tblNoFW)]) = .error "ValueError" ∧
    ([(songdoU, tblNoTemp)] : List (List UChar × Table)) ≠ [] ∧
    avg_temp [(songdoU, tblNoTemp)] = .error "KeyError" := by
  refine ⟨by decide, by decide, by decide, by decide, by decide⟩

/-- C3 counterexample: a workbook whose sheets appear in the order
동산고, 송도고 with exactly tied mean fresh weights makes `max_school`
return 동산고, the first site in workbook sheet order — not 송도고, the
first in the canonical configuration order 송도고, 하늘고, 아라고, 동산고
that the claim requires. -/
theorem C3_tie_not_canonical :
    avg_weights (load_growth_data wbTie) = [(dongsanU, some 5), (songdoU, some 5)] ∧
    max_school (avg_weights (load_growth_data wbTie)) = .ok dongsanU ∧
    dongsanU ≠ songdoU := by
  have hg : load_growth_data wbTie = [(dongsanU, tbl5), (songdoU, tbl5)] := by decide
  have ha : avg_weights (load_growth_data wbTie)
      = [(dongsanU, some 5), (songdoU, some 5)] := by
    rw [hg]
    simp [avg_weights, tbl5, Table.col?, lookupA, fwCol, pandasMean_single]
  refine ⟨ha, ?_, by decide⟩
  rw [ha]
  decide

/-- C4 counterexample: the decorated filename `송도고_환경데이터_v2.csv`
does contain the normalized target label `송도고_환경데이터` as a substring
and is a `.csv` entry, yet the loader resolves nothing for 송도고 (its
line-56 test is equality, not containment) and instead reports the file as
not found. The claim as stated is false. -/
theorem C4_decorated_not_resolved :
    containsSeq (songdoU ++ [.raw 95] ++ envLabel) decoratedSongdo = true ∧
    pathSuffix decoratedSongdo = csvExt ∧
    (load_environment_data [⟨decoratedSongdo, true, some emptyTable⟩]).data = [] ∧
    EnvDiag.notFound songdoU ∈
      (load_environment_data [⟨decoratedSongdo, true, some emptyTable⟩]).warns := by
  refine ⟨by decide, by decide, by decide, by decide⟩

/-- C5 counterexample: a file whose header is `" Temperature "` is stored by
the loader with its header verbatim — no trimming or lower-casing happens —
so downstream access to `temperature` fails with `KeyError` instead of
succeeding as the claim states. -/
theorem C5_header_not_normalized :
    (load_environment_data [⟨envFileNameNFC songdoU, true, some tblSpacey⟩]).data
      = [(songdoU, tblSpacey)] ∧
    tblSpacey.col? "temperature" = none ∧
    avg_temp [(songdoU, tblSpacey)] = .error "KeyError" ∧
    env_stats tblSpacey = .error "KeyError" := by
  refine ⟨by decide, by decide, by decide, by decide⟩

/-- C7: for fresh-weight samples exactly `[1.0, 2.0, 3.0]` the per-site mean
is `2.0` and the squared standard deviation pandas computes (`ddof=1`,
denominator N-1) is `1`, so the standard deviation is `√1 = 1`; the
population value would be `√(2/3) ≠ 1`. The environment statistics use the
same N-1 convention, as the `env_stats` record for `[1.0, 2.0, 3.0]` columns
shows. -/
theorem C7_sample_std_convention :
    avg_weights [(songdoU, tblG123)] = [(songdoU, some 2)] ∧
    pandasVar [some 1, some 2, some 3] = some 1 ∧
    popVarSpec [some 1, some 2, some 3] = some (2 / 3) ∧
    env_stats tblEnv123
      = .ok ⟨some 2, some 1, some 2, some 1, some 2, some 1, some 2, some 1⟩ ∧
    Real.sqrt 1 = 1 ∧ Real.sqrt (2 / 3) ≠ 1 := by
  refine ⟨?_, pandasVar_123, popVarSpec_123, ?_, Real.sqrt_one, ?_⟩
  · simp [avg_weights, tblG123, Table.col?, lookupA, fwCol, pandasMean_123]
  · have hE : env_stats tblEnv123
        = Except.ok ⟨pandasMean [some 1, some 2, some 3], pandasVar [some 1, some 2, some 3],
            pandasMean [some 1, some 2, some 3], pandasVar [some 1, some 2, some 3],
            pandasMean [some 1, some 2, some 3], pandasVar [some 1, some 2, some 3],
            pandasMean [some 1, some 2, some 3], pandasVar [some 1, some 2, some 3]⟩ := rfl
    rw [hE, pandasMean_123, pandasVar_123]
  intro h
  have h0 : (0 : ℝ) ≤ 2 / 3 := by norm_num
  have hsq := Real.sq_sqrt h0
  rw [h] at hsq
  norm_num at hsq

/-- C1 amended: when a site's growth table carries the fresh-weight column
(so the site is in `schools_list`) but lacks one of the other numeric growth
columns, the `metrics` aggregation substitutes the number `0` for that
site's value in that field, rather than an explicit no-data value. -/
theorem C1_missing_column_yields_zero (df : Table) (xs : List (Option ℚ))
    (hfw : df.col? fwCol = some xs) (hleaf : df.col? leafCol = none) :
    metrics [(songdoU, df)] leafCol = [some 0] := by
  simp [metrics, avg_weights, lookupA, hfw, hleaf]

/-- Witness for `C1_missing_column_yields_zero` at the concrete table whose
only column is `생중량(g) = [1, 2]`. -/
theorem C1_missing_column_yields_zero_witness :
    metrics [(songdoU, tblFWonly)] leafCol = [some 0] :=
  C1_missing_column_yields_zero tblFWonly [some 1, some 2] rfl rfl

/-- C4 amended: the environment-file resolver matches a candidate `.csv`
entry only by exact equality of its (raw or normalized) name with the target
name `site + _환경데이터.csv`: the exactly named file is resolved for its
site, while the decorated name `site + _환경데이터_v2.csv` is not resolved
at all. -/
theorem C4_exact_equality_matching (school : List UChar) (h : school ∈ schools)
    (t : Table) :
    lookupA (load_environment_data
        [⟨envFileNameNFC school, true, some t⟩]).data school = some t ∧
    lookupA (load_environment_data
        [⟨school ++ [.raw 95] ++ envLabel ++ [.raw 95, .raw 118, .raw 50] ++ csvExt,
          true, some t⟩]).data school = none := by
  simp only [schools, List.mem_cons, List.not_mem_nil, or_false] at h
  rcases h with rfl | rfl | rfl | rfl <;> exact ⟨rfl, rfl⟩

/-- Witness for `C4_exact_equality_matching` at 송도고 and the empty table. -/
theorem C4_exact_equality_matching_witness :
    lookupA (load_environment_data
        [⟨envFileNameNFC songdoU, true, some emptyTable⟩]).data songdoU = some emptyTable ∧
    lookupA (load_environment_data
        [⟨songdoU ++ [.raw 95] ++ envLabel ++ [.raw 95, .raw 118, .raw 50] ++ csvExt,
          true, some emptyTable⟩]).data songdoU = none :=
  C4_exact_equality_matching songdoU (by decide) emptyTable

/-- C5 amended: column identifiers are used exactly as they appear in the
source header — the loader performs no trimming or lower-casing — so the
per-site temperature aggregation succeeds when the header is exactly
`temperature` and raises `KeyError` when the header is `" Temperature "`,
differing only in case and surrounding whitespace. -/
theorem C5_exact_header_access (xs : List (Option ℚ)) :
    (∃ r, avg_temp [(songdoU, ⟨[("temperature", xs)]⟩)] = .ok r) ∧
    avg_temp [(songdoU, ⟨[(" Temperature ", xs)]⟩)] = .error "KeyError" := by
  exact ⟨⟨_, rfl⟩, rfl⟩

/-- Witness for `C5_exact_header_access` at the cell list `[20.0]`. -/
theorem C5_exact_header_access_witness :
    (∃ r, avg_temp [(songdoU, ⟨[("temperature", [some 20])]⟩)] = .ok r) ∧
    avg_temp [(songdoU, ⟨[(" Temperature ", [some 20])]⟩)] = .error "KeyError" :=
  C5_exact_header_access [some 20]

/-- C6: for every configured site, a directory entry named with the composed
(NFC) form of `site + _환경데이터.csv` and one named with its decomposed
(NFD) counterpart are resolved identically: either way the loader assigns
exactly that file's table to that site. -/
theorem C6_normalization_symmetry (school : List UChar) (h : school ∈ schools)
    (t : Table) :
    (load_environment_data
        [⟨nfc (school ++ envSuffix), true, some t⟩]).data = [(school, t)] ∧
    (load_environment_data
        [⟨nfd (school ++ envSuffix), true, some t⟩]).data = [(school, t)] := by
  simp only [schools, List.mem_cons, List.not_mem_nil, or_false] at h
  rcases h with rfl | rfl | rfl | rfl <;> exact ⟨rfl, rfl⟩

/-- Witness for `C6_normalization_symmetry` at 송도고 and the empty table. -/
theorem C6_normalization_symmetry_witness :
    (load_environment_data
        [⟨nfc (songdoU ++ envSuffix), true, some emptyTable⟩]).data = [(songdoU, emptyTable)] ∧
    (load_environment_data
        [⟨nfd (songdoU ++ envSuffix), true, some emptyTable⟩]).data = [(songdoU, emptyTable)] :=
  C6_normalization_symmetry songdoU (by decide) emptyTable

/-- C8: the workbook with sheets `Site: 하늘고 (raw)` and `unrelated`
attributes only the first sheet's table to site 하늘고 and silently discards
the second: the site name 하늘고 occurs as a substring of the first sheet
name, while no configured site name occurs in `unrelated`. -/
theorem C8_sheet_matching (tH tU : Table) :
    load_growth_data [(sheetHaneulDecor, tH), (unrelatedSheet, tU)] = [(haneulU, tH)] ∧
    containsSeq haneulU sheetHaneulDecor = true ∧
    (schools.all fun s => !containsSeq s unrelatedSheet) = true := by
  exact ⟨rfl, by decide, by decide⟩

/-- Witness for `C8_sheet_matching` at concrete tables. -/
theorem C8_sheet_matching_witness :
    load_growth_data [(sheetHaneulDecor, tbl5), (unrelatedSheet, emptyTable)]
      = [(haneulU, tbl5)] ∧
    containsSeq haneulU sheetHaneulDecor = true ∧
    (schools.all fun s => !containsSeq s unrelatedSheet) = true :=
  C8_sheet_matching tbl5 emptyTable

/-- C9: with a name-matching but unparseable file for 송도고 and a good file
for 하늘고, the loader returns a value (no exception): 송도고's file is
excluded from the merged data, 하늘고 is still loaded, the line-63
read-failure warning `loadFail` is emitted for 송도고, and that diagnostic
is a different value from the `notFound` diagnostic that reports an absent
file (as emitted for 아라고 and 동산고, which have no matching entry). -/
theorem C9_unreadable_reported_continue (tH : Table) :
    (load_environment_data [⟨envFileNameNFC songdoU, true, none⟩,
        ⟨envFileNameNFC haneulU, true, some tH⟩]).data = [(haneulU, tH)] ∧
    lookupA (load_environment_data [⟨envFileNameNFC songdoU, true, none⟩,
        ⟨envFileNameNFC haneulU, true, some tH⟩]).data songdoU = none ∧
    (load_environment_data [⟨envFileNameNFC songdoU, true, none⟩,
        ⟨envFileNameNFC haneulU, true, some tH⟩]).warns
      = [.loadFail songdoU, .notFound songdoU, .notFound araU, .notFound dongsanU] ∧
    (∀ s s' : List UChar, EnvDiag.loadFail s ≠ EnvDiag.notFound s') := by
  refine ⟨rfl, rfl, rfl, fun s s' h => by cases h⟩

/-- Witness for `C9_unreadable_reported_continue` at a concrete table. -/
theorem C9_unreadable_reported_continue_witness :
    (load_environment_data [⟨envFileNameNFC songdoU, true, none⟩,
        ⟨envFileNameNFC haneulU, true, some tbl5⟩]).data = [(haneulU, tbl5)] ∧
    lookupA (load_environment_data [⟨envFileNameNFC songdoU, true, none⟩,
        ⟨envFileNameNFC haneulU, true, some tbl5⟩]).data songdoU = none ∧
    (load_environment_data [⟨envFileNameNFC songdoU, true, none⟩,
        ⟨envFileNameNFC haneulU, true, some tbl5⟩]).warns
      = [.loadFail songdoU, .notFound songdoU, .notFound araU, .notFound dongsanU] ∧
    (∀ s s' : List UChar, EnvDiag.loadFail s ≠ EnvDiag.notFound s') :=
  C9_unreadable_reported_continue tbl5

theorem pyFold_first (x : List UChar × ℚ) (xs : List (List UChar × ℚ)) :
    ∃ l₁ l₂ r, (xs.map fun p => (p.1, some p.2)).foldl
        (fun best item => if pyGt item.2 best.2 then item else best) (x.1, some x.2)
        = (r.1, some r.2)
      ∧ x :: xs = l₁ ++ r :: l₂
      ∧ (∀ p ∈ x :: xs, p.2 ≤ r.2)
      ∧ (∀ p ∈ l₁, p.2 < r.2) := by
  induction xs generalizing x with
  | nil =>
    exact ⟨[], [], x, rfl, rfl, by simp, by simp⟩
  | cons y ys ih =>
    by_cases h : x.2 < y.2
    · obtain ⟨l₁, l₂, r, hfold, hdec, hmax, hlt⟩ := ih y
      have hyr : y.2 ≤ r.2 := hmax y (List.mem_cons_self y ys)
      refine ⟨x :: l₁, l₂, r, ?_, ?_, ?_, ?_⟩
      · simpa [pyGt, h] using hfold
      · rw [List.cons_append, ← hdec]
      · intro p hp
        rcases List.mem_cons.1 hp with rfl | hp'
        · exact le_of_lt (lt_of_lt_of_le h hyr)
        · exact hmax p hp'
      · intro p hp
        rcases List.mem_cons.1 hp with rfl | hp'
        · exact lt_of_lt_of_le h hyr
        · exact hlt p hp'
    · obtain ⟨l₁, l₂, r, hfold, hdec, hmax, hlt⟩ := ih x
      have hle : y.2 ≤ x.2 := le_of_not_lt h
      cases l₁ with
      | nil =>
        simp only [List.nil_append] at hdec
        injection hdec with hx hys
        refine ⟨[], y :: ys, r, ?_, by simp [hx], ?_, by simp⟩
        · simpa [pyGt, h] using hfold
        · intro p hp
          rcases List.mem_cons.1 hp with rfl | hp'
          · exact hmax p (List.mem_cons_self p ys)
          rcases List.mem_cons.1 hp' with rfl | hp''
          · rw [← hx]; exact hle
          · exact hmax p (List.mem_cons_of_mem x (hys ▸ hp''))
      | cons a l₁' =>
        simp only [List.cons_append] at hdec
        injection hdec with hx hys
        subst hx
        refine ⟨x :: y :: l₁', l₂, r, ?_, ?_, ?_, ?_⟩
        · simpa [pyGt, h] using hfold
        · rw [hys]; rfl
        · intro p hp
          rcases List.mem_cons.1 hp with rfl | hp'
          · exact hmax p (List.mem_cons_self p ys)
          rcases List.mem_cons.1 hp' with rfl | hp''
          · exact le_trans hle (hmax x (List.mem_cons_self x ys))
          · exact hmax p (List.mem_cons_of_mem x (hys ▸ hp''))
        · intro p hp
          rcases List.mem_cons.1 hp with rfl | hp'
          · exact hlt p (List.mem_cons_self p l₁')
          rcases List.mem_cons.1 hp' with rfl | hp''
          · exact lt_of_le_of_lt hle (hlt x (List.mem_cons_self x l₁'))
          · exact hlt p (List.mem_cons_of_mem x hp'')

theorem max_school_first_max (l : List (List UChar × ℚ)) (hne : l ≠ []) :
    ∃ k v l₁ l₂, max_school (l.map fun p => (p.1, some p.2)) = .ok k ∧
      l = l₁ ++ (k, v) :: l₂ ∧ (∀ p ∈ l, p.2 ≤ v) ∧ (∀ p ∈ l₁, p.2 < v) := by
  cases l with
  | nil => exact absurd rfl hne
  | cons x xs =>
    obtain ⟨l₁, l₂, r, hfold, hdec, hmax, hlt⟩ := pyFold_first x xs
    refine ⟨r.1, r.2, l₁, l₂, ?_, by simpa using hdec, hmax, hlt⟩
    simp only [max_school, List.map_cons]
    rw [hfold]

/-- C3 amended: over any workbook whose per-site fresh-weight means are all
numeric, `max_school` returns a site whose mean is maximal, and on exact
ties it is the one appearing first in the order of the per-site means map —
that is, growth-data insertion order, which is workbook sheet order — not
the canonical site-configuration order. -/
theorem C3_first_in_sheet_order (wb : List (List UChar × Table))
    (l : List (List UChar × ℚ))
    (h : avg_weights (load_growth_data wb) = l.map fun p => (p.1, some p.2))
    (hne : l ≠ []) :
    ∃ k v l₁ l₂, max_school (avg_weights (load_growth_data wb)) = .ok k ∧
      l = l₁ ++ (k, v) :: l₂ ∧ (∀ p ∈ l, p.2 ≤ v) ∧ (∀ p ∈ l₁, p.2 < v) := by
  rw [h]
  exact max_school_first_max l hne

/-- Witness for `C3_first_in_sheet_order` on the tied two-sheet workbook. -/
theorem C3_first_in_sheet_order_witness :
    ∃ k v l₁ l₂, max_school (avg_weights (load_growth_data wbTie)) = .ok k ∧
      [(dongsanU, (5 : ℚ)), (songdoU, 5)] = l₁ ++ (k, v) :: l₂ ∧
      (∀ p ∈ [(dongsanU, (5 : ℚ)), (songdoU, 5)], p.2 ≤ v) ∧
      (∀ p ∈ l₁, p.2 < v) :=
  C3_first_in_sheet_order wbTie [(dongsanU, 5), (songdoU, 5)]
    (by
      have hg : load_growth_data wbTie = [(dongsanU, tbl5), (songdoU, tbl5)] := by decide
      rw [hg]
      simp [avg_weights, tbl5, Table.col?, lookupA, fwCol, pandasMean_single])
    (by decide)

theorem schools_nodup : schools.Nodup := by decide

theorem keys_filterMap (f : List UChar → Option Table) (l : List (List UChar)) :
    ((l.filterMap fun sc => (f sc).map fun df => (sc, df)).map Prod.fst)
      = l.filter fun sc => ((f sc).isSome) := by
  induction l with
  | nil => rfl
  | cons a t ih =>
    cases h : f a <;> simp [List.filterMap_cons, h, ih, List.filter_cons]

theorem env_keys_eq (dir : List DirEntry) :
    (load_environment_data dir).data.map Prod.fst
      = schools.filter fun sc => ((scanSchool sc dir).1).isSome :=
  keys_filterMap (fun sc => (scanSchool sc dir).1) schools

theorem env_mem_schools {dir : List DirEntry} {p : List UChar × Table}
    (hp : p ∈ (load_environment_data dir).data) : p.1 ∈ schools := by
  obtain ⟨sc, hsc, hmap⟩ := List.mem_filterMap.1 hp
  rcases Option.map_eq_some'.1 hmap with ⟨df, hdf, rfl⟩
  exact hsc

theorem map_fst_replace {K V : Type} [DecidableEq K] (gd : List (K × V)) (k : K) (v : V) :
    ((gd.map fun p => if p.1 = k then (k, v) else p).map Prod.fst) = gd.map Prod.fst := by
  induction gd with
  | nil => rfl
  | cons a t ih => by_cases h : a.1 = k <;> simp [h, ih]

theorem insertReplace_mem {K V : Type} [DecidableEq K] {gd : List (K × V)} {k : K}
    {v : V} {p : K × V} (hp : p ∈ insertReplace gd k v) : p = (k, v) ∨ p ∈ gd := by
  unfold insertReplace at hp
  split at hp
  · obtain ⟨q, hq, hqe⟩ := List.mem_map.1 hp
    by_cases h : q.1 = k
    · rw [if_pos h] at hqe
      exact Or.inl hqe.symm
    · rw [if_neg h] at hqe
      exact Or.inr (hqe ▸ hq)
  · rcases List.mem_append.1 hp with h | h
    · exact Or.inr h
    · exact Or.inl (by simpa using h)

theorem insertReplace_keys_nodup {K V : Type} [DecidableEq K] (gd : List (K × V))
    (k : K) (v : V) (hn : (gd.map Prod.fst).Nodup) :
    ((insertReplace gd k v).map Prod.fst).Nodup := by
  unfold insertReplace
  split
  · rw [map_fst_replace]
    exact hn
  · next h =>
    have hk : k ∉ gd.map Prod.fst := by
      simp only [List.any_eq_true, decide_eq_true_eq] at h
      push_neg at h
      intro hmem
      obtain ⟨q, hq, hqe⟩ := List.mem_map.1 hmem
      exact h q hq hqe
    rw [List.map_append]
    refine List.Nodup.append hn (List.nodup_singleton k) ?_
    intro a ha hb
    rw [List.mem_singleton.1 hb] at ha
    exact hk ha

theorem growth_fold_inv (wb : List (List UChar × Table)) :
    ∀ acc : List (List UChar × Table),
      (∀ p ∈ acc, p.1 ∈ schools) → (acc.map Prod.fst).Nodup →
      (∀ p ∈ wb.foldl growthStep acc, p.1 ∈ schools) ∧
        ((wb.foldl growthStep acc).map Prod.fst).Nodup := by
  induction wb with
  | nil =>
    intro acc h1 h2
    exact ⟨h1, h2⟩
  | cons s t ih =>
    intro acc h1 h2
    simp only [List.foldl_cons]
    apply ih
    · intro p hp
      unfold growthStep at hp
      cases hf : schools.find? fun sc => containsSeq sc s.1 with
      | none =>
        rw [hf] at hp
        exact h1 p hp
      | some sc =>
        rw [hf] at hp
        rcases insertReplace_mem hp with rfl | hp'
        · exact List.mem_of_find?_eq_some hf
        · exact h1 p hp'
    · unfold growthStep
      cases hf : schools.find? fun sc => containsSeq sc s.1 with
      | none => exact h2
      | some sc => exact insertReplace_keys_nodup acc sc s.2 h2

/-- C10: for every directory and every workbook, the key sets of the
mappings the two loaders return are contained in the fixed four configured
site names, each key appears at most once, and the per-site target EC
recorded in the immutable configuration `EC_INFO` is the constant
송도고 ↦ 1.0, 하늘고 ↦ 2.0, 아라고 ↦ 4.0, 동산고 ↦ 8.0. -/
theorem C10_config_invariants :
    (∀ dir : List DirEntry, ∀ p ∈ (load_environment_data dir).data, p.1 ∈ schools) ∧
    (∀ dir : List DirEntry, ((load_environment_data dir).data.map Prod.fst).Nodup) ∧
    (∀ wb : List (List UChar × Table), ∀ p ∈ load_growth_data wb, p.1 ∈ schools) ∧
    (∀ wb : List (List UChar × Table), ((load_growth_data wb).map Prod.fst).Nodup) ∧
    (lookupA EC_INFO songdoU).map ECInfo.ec = some 1 ∧
    (lookupA EC_INFO haneulU).map ECInfo.ec = some 2 ∧
    (lookupA EC_INFO araU).map ECInfo.ec = some 4 ∧
    (lookupA EC_INFO dongsanU).map ECInfo.ec = some 8 := by
  refine ⟨fun dir p hp => env_mem_schools hp,
    fun dir => ?_,
    fun wb p hp => (growth_fold_inv wb [] (by simp) (by simp)).1 p hp,
    fun wb => (growth_fold_inv wb [] (by simp) (by simp)).2,
    by decide, by decide, by decide, by decide⟩
  rw [env_keys_eq]
  exact schools_nodup.filter _
